import Mathlib

/-!
Verification of the ClickClick auto-clicker core (src/src/*.py) against its
specification.  The Python modules are shallowly embedded: mutable objects
become explicit state records, methods become state-transition functions,
the random primitives take their entropy as extra arguments, and operations
that may raise return an explicit outcome.  Background-thread interleavings
are modelled by letting the environment supply, per loop iteration, the
values the loop would read under its lock.
-/

namespace ClickClick

/-- Constant MIN_CLICK_DELAY from src/config.py (1.0 seconds). -/
def MIN_CLICK_DELAY : ℚ := 1

/-- Constant MAX_CLICK_DELAY from src/config.py (3.0 seconds). -/
def MAX_CLICK_DELAY : ℚ := 3

/-- Constant POSITION_OFFSET_RANGE from src/config.py (3 pixels). -/
def POSITION_OFFSET_RANGE : ℤ := 3

/-- Model of Python random.randint(a, b): returns an integer in the closed
interval [a, b]; the underlying entropy is the natural number u.  When
a > b, random.randint raises ValueError, modelled as none. -/
def randint? (a b : ℤ) (u : ℕ) : Option ℤ :=
  if a ≤ b then some (a + (u : ℤ) % (b - a + 1)) else none

/-- Model of Python random.uniform(a, b) = a + (b - a) * random(), with t
standing for the underlying draw of random() from [0, 1). -/
def uniform (a b : ℚ) (t : ℚ) : ℚ := a + (b - a) * t

/-- State of MouseController (src/mouse_controller.py): the optional locked
position and the runtime-adjustable offset range. -/
structure MCState where
  locked_position : Option (ℤ × ℤ)
  offset_range : ℤ
deriving DecidableEq

/-- MouseController.lock_current_position: pos is the result of
pyautogui.position(), none meaning the call raised.  On success the locked
position is replaced; on failure the exception is caught silently and the
state is left unchanged. -/
def lock_current_position (s : MCState) (pos : Option (ℤ × ℤ)) : MCState :=
  match pos with
  | some p => { s with locked_position := some p }
  | none => s

/-- MouseController.unlock_position: clears the locked position. -/
def unlock_position (s : MCState) : MCState :=
  { s with locked_position := none }

/-- MouseController.set_offset_range: v is the result of int(value), none
meaning the conversion raised, in which case nothing changes; otherwise the
value is clamped into [0, 50]. -/
def set_offset_range (s : MCState) (v : Option ℤ) : MCState :=
  match v with
  | some n => { s with offset_range := max 0 (min 50 n) }
  | none => s

/-- MouseController._get_random_offset: draws both components with
random.randint(-rng, rng); u1 and u2 are the entropy of the two draws.
none models the ValueError raised when rng < 0. -/
def get_random_offset (rng : ℤ) (u1 u2 : ℕ) : Option (ℤ × ℤ) :=
  match randint? (-rng) rng u1, randint? (-rng) rng u2 with
  | some x, some y => some (x, y)
  | _, _ => none

/-- MouseController.click_at_locked_position: returns the coordinates at
which a click is requested from pyautogui, or none when no click is issued
(position not locked, or the offset computation raised and was caught). -/
def click_at_locked_position (s : MCState) (u1 u2 : ℕ) : Option (ℤ × ℤ) :=
  match s.locked_position with
  | none => none
  | some p =>
    match get_random_offset s.offset_range u1 u2 with
    | some o => some (p.1 + o.1, p.2 + o.2)
    | none => none

/-- State of ClickScheduler (src/click_scheduler.py): the is_active flag,
whether self.thread currently holds a thread object, and the two
runtime-adjustable delay bounds. -/
structure SchedState where
  is_active : Bool
  hasThread : Bool
  min_delay : ℚ
  max_delay : ℚ
deriving DecidableEq

/-- Outcome of ClickScheduler.start: normal return, the RuntimeError for an
already running scheduler, or the re-raised thread launch failure. -/
inductive StartOutcome
  | ok
  | alreadyRunningError
  | launchError
deriving DecidableEq

/-- ClickScheduler.start: raises RuntimeError if already active (state
untouched); otherwise sets is_active, creates the thread and starts it.
launchOk says whether thread.start() succeeds; on failure is_active is
rolled back to false, the thread reference is cleared and the error is
re-raised. -/
def start (s : SchedState) (launchOk : Bool) : SchedState × StartOutcome :=
  if s.is_active then (s, StartOutcome.alreadyRunningError)
  else if launchOk then
    ({ s with is_active := true, hasThread := true }, StartOutcome.ok)
  else
    ({ s with is_active := false, hasThread := false }, StartOutcome.launchError)

/-- ClickScheduler.stop: returns the new state together with the timeout
passed to thread.join (none when no join happens).  Not active: plain
return, nothing changes.  Active: clears is_active; if a thread object is
held, joins it with timeout max_delay + 1.0 and clears the reference; a
join timeout is non-fatal and the method still returns. -/
def stop (s : SchedState) : SchedState × Option ℚ :=
  if s.is_active then
    if s.hasThread then
      ({ s with is_active := false, hasThread := false }, some (s.max_delay + 1))
    else
      ({ s with is_active := false }, none)
  else (s, none)

/-- ClickScheduler.set_delay_range: mn and mx are the results of float() on
the two arguments, none meaning the conversion raised, in which case the
method returns with no state change.  Otherwise both are floored at 0.01,
swapped if needed, and stored. -/
def set_delay_range (s : SchedState) (mn mx : Option ℚ) : SchedState :=
  match mn, mx with
  | some a, some b =>
    if max (1 / 100) a > max (1 / 100) b then
      { s with min_delay := max (1 / 100) b, max_delay := max (1 / 100) a }
    else
      { s with min_delay := max (1 / 100) a, max_delay := max (1 / 100) b }
  | _, _ => s

/-- The fields of the dict returned by ClickScheduler.get_status that the
specification claims talk about. -/
structure Status where
  is_active : Bool
  min_delay : ℚ
  max_delay : ℚ
deriving DecidableEq

/-- ClickScheduler.get_status: snapshot of the scheduler state. -/
def get_status (s : SchedState) : Status :=
  { is_active := s.is_active, min_delay := s.min_delay, max_delay := s.max_delay }

/-- Observable events emitted by the clicking loop.  The publish constructor
is the alphabet slot for a countdown-observer notification carrying
Some(delay) or None; it exists so that absence of such notifications in the
loop of the source is expressible. -/
inductive Ev
  | sleep (d : ℚ)
  | click
  | publish (d : Option ℚ)
deriving DecidableEq

/-- True exactly on countdown-observer notification events. -/
def Ev.isPublish : Ev → Bool
  | .publish _ => true
  | _ => false

/-- Whether a trace contains any countdown-observer notification. -/
def has_publish (l : List Ev) : Bool := l.any Ev.isPublish

/-- Environment snapshot for one iteration of
ClickScheduler._clicking_loop: the value of is_active read at the top of
the loop, the delay bounds read under the lock, the entropy of
random.uniform, and the value of is_active read at the double-check after
the sleep. -/
structure LoopIter where
  activeAtTop : Bool
  mn : ℚ
  mx : ℚ
  t : ℚ
  activeAtCheck : Bool
deriving DecidableEq

/-- ClickScheduler._clicking_loop as a trace of observable events, the
environment supplying one snapshot per iteration (the list ending truncates
the observation).  Each iteration: break if the top check reads inactive;
otherwise sample delay = uniform(mn, mx), sleep the full delay, then skip
the click if the double-check reads inactive, else request the click. -/
def clicking_loop : List LoopIter → List Ev
  | [] => []
  | it :: rest =>
    if it.activeAtTop then
      Ev.sleep (uniform it.mn it.mx it.t) ::
        (if it.activeAtCheck then Ev.click :: clicking_loop rest
         else clicking_loop rest)
    else []

/-- Duration of the per-iteration suspension of the clicking loop
(time.sleep(delay) at src/click_scheduler.py:156).  stopAt records the
elapsed time into the wait at which stop() clears the active flag, none if
stop is not invoked during the wait; it has no effect on the duration
because stop() signals no wake-up event and time.sleep is not
interruptible. -/
def sleep_duration (delay : ℚ) (stopAt : Option ℚ) : ℚ := delay

/-- Modelled from the spec: the interruptible suspension the specification
requires in its place, which "must observably end early if stop is invoked
mid-wait", i.e. ends at the earlier of the sampled delay and the stop
request. -/
def spec_interruptible_wait (delay : ℚ) (stopAt : Option ℚ) : ℚ :=
  match stopAt with
  | none => delay
  | some tS => min delay tS

/-- State of ClickClickApp (src/main.py) restricted to the observable
fields the claims talk about: the application active flag, its mirror of
the locked position, the mouse controller and scheduler states, whether the
status indicator shows active, and the last (active, position) pair pushed
to the GUI via update_status. -/
structure AppState where
  is_active : Bool
  locked_position : Option (ℤ × ℤ)
  mouse : MCState
  sched : SchedState
  indicator_active : Bool
  gui_status : Bool × Option (ℤ × ℤ)
deriving DecidableEq

/-- The except branch of the Idle-to-Active arm of
ClickClickApp.toggle_clicking: stop the scheduler, unlock the position,
show the inactive indicator, push (False, None) to the GUI, clear the
position mirror and the active flag. -/
def toggle_rollback (a : AppState) (m1 : MCState) (s1 : SchedState) : AppState :=
  { a with
    sched := (stop s1).1
    mouse := unlock_position m1
    indicator_active := false
    gui_status := (false, none)
    locked_position := none
    is_active := false }

/-- ClickClickApp.toggle_clicking.  capture is the result of
pyautogui.position() inside lock_current_position (none = raised, swallowed
there); launchOk is whether thread.start() succeeds inside scheduler start;
indicatorOk and guiOk are whether show_active and gui.update_status return
normally.  Inactive arm: lock position, start scheduler, notify indicator
and GUI, set active; any exception triggers the rollback.  Active arm: stop
scheduler, unlock position, notify inactive, clear active flag. -/
def toggle_clicking (a : AppState) (capture : Option (ℤ × ℤ))
    (launchOk indicatorOk guiOk : Bool) : AppState :=
  if a.is_active then
    { a with
      sched := (stop a.sched).1
      mouse := unlock_position a.mouse
      locked_position := none
      indicator_active := false
      gui_status := (false, none)
      is_active := false }
  else
    let m1 := lock_current_position a.mouse capture
    let p := start a.sched launchOk
    if p.2 = StartOutcome.ok ∧ indicatorOk ∧ guiOk then
      { a with
        mouse := m1
        locked_position := m1.locked_position
        sched := p.1
        indicator_active := true
        gui_status := (true, m1.locked_position)
        is_active := true }
    else
      toggle_rollback a m1 p.1

/-- Hotkey binding fields of HotkeyHandler (src/hotkey_handler.py):
_hotkey_vk, _hotkey_char, _hotkey_name. -/
structure HotkeyBinding where
  vk : Option ℤ
  ch : Option String
  name : Option String
deriving DecidableEq

/-- A pynput key event as seen by HotkeyHandler._on_press: either a KeyCode
(with its optional virtual key code and optional character string) or a Key
enum member, represented by its str() form. -/
inductive KeyEvent
  | keyCode (vk : Option ℤ) (ch : Option String)
  | keyName (s : String)
deriving DecidableEq

/-- The matching decision of HotkeyHandler._on_press.  For a KeyCode event:
the vk branch fires when the binding has a vk and the event vk equals it
(comparison with a missing event vk is Python None == int, false); the elif
char branch runs whenever the vk branch did not fire, and matches when the
binding has a char, the event char is truthy (non-empty), and the two
compare equal case-insensitively.  For a Key enum event: matches when the
binding has a name equal to str(key).  -/
def on_press_matches (b : HotkeyBinding) (k : KeyEvent) : Bool :=
  match k with
  | .keyCode kvk kch =>
    if (match b.vk, kvk with
        | some hv, some v => v == hv
        | _, _ => false) = true then
      true
    else
      match b.ch, kch with
      | some hc, some c => c != "" && c.toLower == hc.toLower
      | _, _ => false
  | .keyName s =>
    match b.name with
    | some n => s == n
    | none => false

/-- A Python value passed to HotkeyHandler.set_hotkey: None, a value int()
converts to n, a string, or a value that is neither int-convertible nor a
string. -/
inductive PyArg
  | pynone
  | pyintlike (n : ℤ)
  | pystr (s : String)
  | pynonconv
deriving DecidableEq

/-- Model of Python int(x) on a PyArg, none meaning TypeError or
ValueError. -/
def py_to_int : PyArg → Option ℤ
  | .pyintlike n => some n
  | .pystr s => s.toInt?
  | _ => none

/-- HotkeyHandler.set_hotkey: each field of the binding is recomputed from
the corresponding argument alone.  vk: int(vk) if vk is not None else None,
any conversion error giving None.  char: kept only if it is a string of
length 1.  name: kept only if it is a string starting with "Key.". -/
def set_hotkey (prev : HotkeyBinding) (vk ch nm : PyArg) : HotkeyBinding :=
  { vk := match vk with
          | .pynone => none
          | v => py_to_int v
    ch := match ch with
          | .pystr s => if s.length = 1 then some s else none
          | _ => none
    name := match nm with
          | .pystr s => if s.startsWith ("Key.") then some s else none
          | _ => none }

/-- Helper: for a ≤ b, the randint model returns a value in [a, b], and the
degenerate interval a = b forces the value a. -/
theorem randint_bounds (a b : ℤ) (u : ℕ) (h : a ≤ b) :
    randint? a b u = some (a + (u : ℤ) % (b - a + 1)) ∧
      a ≤ a + (u : ℤ) % (b - a + 1) ∧ a + (u : ℤ) % (b - a + 1) ≤ b ∧
      (a = b → a + (u : ℤ) % (b - a + 1) = a) := by
  have hm : (0 : ℤ) < b - a + 1 := by linarith
  have he0 : (0 : ℤ) ≤ (u : ℤ) % (b - a + 1) := Int.emod_nonneg _ (ne_of_gt hm)
  have he1 : (u : ℤ) % (b - a + 1) < b - a + 1 := Int.emod_lt_of_pos _ hm
  refine ⟨by simp [randint?, h], by linarith, by linarith, ?_⟩
  intro hab
  subst hab
  simp

/-- C5: set_delay_range stores the two inputs floored at 0.01 and sorted so
that min_delay ≤ max_delay, get_status reports exactly the stored bounds,
and a non-numeric input leaves the state entirely unchanged. -/
theorem C5_set_delay_range_spec :
    ∀ (s : SchedState) (a b : ℚ) (mn mx : Option ℚ),
      (get_status (set_delay_range s (some a) (some b))).min_delay
          = min (max (1 / 100) a) (max (1 / 100) b) ∧
      (get_status (set_delay_range s (some a) (some b))).max_delay
          = max (max (1 / 100) a) (max (1 / 100) b) ∧
      (1 : ℚ) / 100 > 0 ∧
      (mn = none ∨ mx = none → set_delay_range s mn mx = s) := by
  intro s a b mn mx
  refine ⟨?_, ?_, by norm_num, ?_⟩
  · simp only [set_delay_range, get_status]
    split_ifs with h
    · exact (min_eq_right h.le).symm
    · exact (min_eq_left (not_lt.mp h)).symm
  · simp only [set_delay_range, get_status]
    split_ifs with h
    · exact (max_eq_left h.le).symm
    · exact (max_eq_right (not_lt.mp h)).symm
  · rintro (rfl | rfl)
    · rfl
    · cases mn <;> rfl

/-- Witness for C5 at s = (inactive, no thread, 1, 3), inputs (5, 2) and a
non-numeric min. -/
theorem C5_witness :
    (get_status (set_delay_range ⟨false, false, 1, 3⟩ (some 5) (some 2))).min_delay
        = min (max (1 / 100) 5) (max (1 / 100) 2) ∧
    (get_status (set_delay_range ⟨false, false, 1, 3⟩ (some 5) (some 2))).max_delay
        = max (max (1 / 100) 5) (max (1 / 100) 2) ∧
    set_delay_range ⟨false, false, 1, 3⟩ none (some 2) = ⟨false, false, 1, 3⟩ := by
  obtain ⟨h1, h2, _, h4⟩ := C5_set_delay_range_spec ⟨false, false, 1, 3⟩ 5 2 none (some 2)
  exact ⟨h1, h2, h4 (Or.inl rfl)⟩

/-- C6: for every radius r ≥ 0 the jitter generator succeeds and both
components lie in the closed interval [-r, r]; radius 0 always yields
(0, 0). -/
theorem C6_jitter_in_range :
    ∀ (r : ℤ) (u1 u2 : ℕ), 0 ≤ r →
      ∃ dx dy, get_random_offset r u1 u2 = some (dx, dy) ∧
        -r ≤ dx ∧ dx ≤ r ∧ -r ≤ dy ∧ dy ≤ r ∧ (r = 0 → dx = 0 ∧ dy = 0) := by
  intro r u1 u2 hr
  have hab : -r ≤ r := by linarith
  obtain ⟨e1, l1, u1b, z1⟩ := randint_bounds (-r) r u1 hab
  obtain ⟨e2, l2, u2b, z2⟩ := randint_bounds (-r) r u2 hab
  refine ⟨_, _, ?_, l1, u1b, l2, u2b, ?_⟩
  · simp [get_random_offset, e1, e2]
  · intro h0
    subst h0
    have hz1 := z1 (by norm_num)
    have hz2 := z2 (by norm_num)
    omega

/-- Witness for C6 at radius 3 with entropy 5 and 11. -/
theorem C6_witness :
    ∃ dx dy, get_random_offset 3 5 11 = some (dx, dy) ∧
      -3 ≤ dx ∧ dx ≤ 3 ∧ -3 ≤ dy ∧ dy ≤ 3 ∧ ((3 : ℤ) = 0 → dx = 0 ∧ dy = 0) :=
  C6_jitter_in_range 3 5 11 (by decide)

/-- C7: no click is requested while no position is locked, and with
position (x, y) locked and offset range r ≥ 0 every requested click target
lies in the closed box [x - r, x + r] times [y - r, y + r]. -/
theorem C7_click_targets :
    ∀ (s : MCState) (u1 u2 : ℕ),
      (s.locked_position = none → click_at_locked_position s u1 u2 = none) ∧
      (∀ x y, s.locked_position = some (x, y) → 0 ≤ s.offset_range →
        ∀ tx ty, click_at_locked_position s u1 u2 = some (tx, ty) →
          x - s.offset_range ≤ tx ∧ tx ≤ x + s.offset_range ∧
          y - s.offset_range ≤ ty ∧ ty ≤ y + s.offset_range) := by
  intro s u1 u2
  constructor
  · intro h
    simp [click_at_locked_position, h]
  · intro x y hlock hr tx ty htgt
    have hab : -s.offset_range ≤ s.offset_range := by linarith
    obtain ⟨e1, l1, u1b, -⟩ := randint_bounds (-s.offset_range) s.offset_range u1 hab
    obtain ⟨e2, l2, u2b, -⟩ := randint_bounds (-s.offset_range) s.offset_range u2 hab
    have hoff : get_random_offset s.offset_range u1 u2
        = some (-s.offset_range + (u1 : ℤ) % (s.offset_range - -s.offset_range + 1),
                -s.offset_range + (u2 : ℤ) % (s.offset_range - -s.offset_range + 1)) := by
      simp only [get_random_offset, e1, e2]
    simp only [click_at_locked_position, hlock, hoff, Option.some.injEq,
      Prod.mk.injEq] at htgt
    obtain ⟨h1, h2⟩ := htgt
    subst h1
    subst h2
    refine ⟨by linarith, by linarith, by linarith, by linarith⟩

/-- Witness for C7: unlocked state issues no click; locked at (100, 100)
with range 3 and entropy (5, 11) the requested target obeys the box
bounds. -/
theorem C7_witness :
    click_at_locked_position ⟨none, 3⟩ 0 0 = none ∧
    (100 - 3 ≤ (102 : ℤ) ∧ (102 : ℤ) ≤ 100 + 3 ∧
     100 - 3 ≤ (101 : ℤ) ∧ (101 : ℤ) ≤ 100 + 3) := by
  constructor
  · exact (C7_click_targets ⟨none, 3⟩ 0 0).1 rfl
  · exact (C7_click_targets ⟨some (100, 100), 3⟩ 5 11).2 100 100 rfl (by decide)
      102 101 (by decide)

/-- C8: start on an already active scheduler reports the already-running
error with the state (in particular the running flag, still true) untouched;
start on an inactive scheduler whose thread launch fails rolls the running
flag back to false, clears the thread and surfaces the launch error; start
on an inactive scheduler with a successful launch sets the running flag and
reports success. -/
theorem C8_start_spec :
    ∀ (s : SchedState) (launchOk : Bool),
      (s.is_active = true →
        start s launchOk = (s, StartOutcome.alreadyRunningError) ∧
        (start s launchOk).1.is_active = true) ∧
      (s.is_active = false → launchOk = false →
        (start s launchOk).1.is_active = false ∧
        (start s launchOk).1.hasThread = false ∧
        (start s launchOk).2 = StartOutcome.launchError) ∧
      (s.is_active = false → launchOk = true →
        (start s launchOk).1.is_active = true ∧
        (start s launchOk).1.hasThread = true ∧
        (start s launchOk).2 = StartOutcome.ok) := by
  intro s launchOk
  refine ⟨?_, ?_, ?_⟩
  · intro h
    simp [start, h]
  · intro h hl
    subst hl
    simp [start, h]
  · intro h hl
    subst hl
    simp [start, h]

/-- Witness for C8 at a running scheduler and at an idle one with both
launch outcomes. -/
theorem C8_witness :
    start ⟨true, true, 1, 3⟩ true = (⟨true, true, 1, 3⟩, StartOutcome.alreadyRunningError) ∧
    (start ⟨false, false, 1, 3⟩ false).1.is_active = false ∧
    (start ⟨false, false, 1, 3⟩ false).2 = StartOutcome.launchError ∧
    (start ⟨false, false, 1, 3⟩ true).1.is_active = true ∧
    (start ⟨false, false, 1, 3⟩ true).2 = StartOutcome.ok := by
  refine ⟨((C8_start_spec ⟨true, true, 1, 3⟩ true).1 rfl).1, ?_, ?_, ?_, ?_⟩
  · exact ((C8_start_spec ⟨false, false, 1, 3⟩ false).2.1 rfl rfl).1
  · exact ((C8_start_spec ⟨false, false, 1, 3⟩ false).2.1 rfl rfl).2.2
  · exact ((C8_start_spec ⟨false, false, 1, 3⟩ true).2.2 rfl rfl).1
  · exact ((C8_start_spec ⟨false, false, 1, 3⟩ true).2.2 rfl rfl).2.2

/-- C9: stop on a non-running scheduler is a no-op returning with no state
change and no join; stop on a running scheduler clears the running flag and,
when a thread object is held, joins it with timeout exactly max_delay + 1
(the bounded, non-fatal wait) and abandons the reference. -/
theorem C9_stop_spec :
    ∀ (s : SchedState),
      (s.is_active = false → stop s = (s, none)) ∧
      (s.is_active = true →
        (stop s).1.is_active = false ∧
        (s.hasThread = true →
          (stop s).2 = some (s.max_delay + 1) ∧ (stop s).1.hasThread = false) ∧
        (s.hasThread = false → (stop s).2 = none)) := by
  intro s
  constructor
  · intro h
    simp [stop, h]
  · intro h
    refine ⟨?_, ?_, ?_⟩
    · by_cases ht : s.hasThread <;> simp [stop, h, ht]
    · intro ht
      simp [stop, h, ht]
    · intro ht
      simp [stop, h, ht]

/-- Witness for C9 at an idle scheduler and at a running scheduler with
max_delay 3 holding a thread. -/
theorem C9_witness :
    stop ⟨false, false, 1, 3⟩ = (⟨false, false, 1, 3⟩, none) ∧
    (stop ⟨true, true, 1, 3⟩).1.is_active = false ∧
    (stop ⟨true, true, 1, 3⟩).2 = some (3 + 1) := by
  refine ⟨(C9_stop_spec ⟨false, false, 1, 3⟩).1 rfl, ?_, ?_⟩
  · exact ((C9_stop_spec ⟨true, true, 1, 3⟩).2 rfl).1
  · exact (((C9_stop_spec ⟨true, true, 1, 3⟩).2 rfl).2.1 rfl).1

/-- C10: set_hotkey recomputes all three binding fields from the call's
arguments alone, independently of the previous binding, and any omitted or
invalid argument yields an unbound field: a None or non-int-convertible vk,
a char that is not a single-character string, a name that is not a string
starting with the Key-enum prefix. -/
theorem C10_set_hotkey_overwrites :
    ∀ (p q : HotkeyBinding) (vk ch nm : PyArg),
      set_hotkey p vk ch nm = set_hotkey q vk ch nm ∧
      (set_hotkey p PyArg.pynone ch nm).vk = none ∧
      (py_to_int vk = none → (set_hotkey p vk ch nm).vk = none) ∧
      (∀ s : String, s.length ≠ 1 → (set_hotkey p vk (PyArg.pystr s) nm).ch = none) ∧
      ((∀ s, ch ≠ PyArg.pystr s) → (set_hotkey p vk ch nm).ch = none) ∧
      (∀ s : String, ¬ s.startsWith ("Key.") →
        (set_hotkey p vk ch (PyArg.pystr s)).name = none) ∧
      ((∀ s, nm ≠ PyArg.pystr s) → (set_hotkey p vk ch nm).name = none) := by
  intro p q vk ch nm
  refine ⟨rfl, rfl, ?_, ?_, ?_, ?_, ?_⟩
  · intro h
    cases vk <;> simp_all [set_hotkey]
  · intro s hs
    simp [set_hotkey, hs]
  · intro h
    cases ch with
    | pystr s => exact absurd rfl (h s)
    | pynone => rfl
    | pyintlike n => rfl
    | pynonconv => rfl
  · intro s hs
    simp [set_hotkey, hs]
  · intro h
    cases nm with
    | pystr s => exact absurd rfl (h s)
    | pynone => rfl
    | pyintlike n => rfl
    | pynonconv => rfl

/-- Witness for C10: a call with a non-convertible vk, a two-character char
and a name lacking the Key-enum prefix clears all three fields, whatever
binding was previously stored. -/
theorem C10_witness :
    set_hotkey ⟨some 101, some ("x"), some ("Key.f8")⟩
        PyArg.pynonconv (PyArg.pystr ("ab")) (PyArg.pystr ("f8"))
      = set_hotkey ⟨none, none, none⟩
        PyArg.pynonconv (PyArg.pystr ("ab")) (PyArg.pystr ("f8")) ∧
    (set_hotkey ⟨some 101, some ("x"), some ("Key.f8")⟩
        PyArg.pynonconv (PyArg.pystr ("ab")) (PyArg.pystr ("f8"))).vk = none ∧
    (set_hotkey ⟨some 101, some ("x"), some ("Key.f8")⟩
        PyArg.pynonconv (PyArg.pystr ("ab")) (PyArg.pystr ("f8"))).ch = none ∧
    (set_hotkey ⟨some 101, some ("x"), some ("Key.f8")⟩
        PyArg.pynonconv (PyArg.pystr ("ab")) (PyArg.pystr ("f8"))).name = none := by
  obtain ⟨h1, -, h3, h4, -, h6, -⟩ :=
    C10_set_hotkey_overwrites ⟨some 101, some ("x"), some ("Key.f8")⟩ ⟨none, none, none⟩
      PyArg.pynonconv (PyArg.pystr ("ab")) (PyArg.pystr ("f8"))
  exact ⟨h1, h3 rfl, h4 ("ab") (by decide), h6 ("f8") (by decide)⟩

/-- Counterexample to C4: a binding with both platform code 101 and
character x matches a KeyCode event carrying platform code 102 and
character x — the claim requires this match to be rejected because the
platform codes differ, but the elif fallthrough in _on_press compares the
characters whenever the vk comparison did not succeed. -/
theorem C4_counterexample :
    on_press_matches ⟨some 101, some ("x"), none⟩
      (KeyEvent.keyCode (some 102) (some ("x"))) = true := by
  simp [on_press_matches]

/-- C4 (amended): for KeyCode events the vk comparison is attempted first
and succeeds on equal codes; the case-insensitive character comparison is
used as a fallback whenever the vk comparison did not succeed — both when
the binding has no platform code and when the codes differ — not only when
the binding has no platform code; the symbolic-name comparison applies only
to non-KeyCode events; a fully unbound binding matches nothing. -/
theorem C4_matching_amended :
    ∀ (hv v : ℤ) (hc c s n : String) (kch : Option String)
      (nm0 : Option String) (vk0 : Option ℤ) (ch0 : Option String),
      (∀ k, on_press_matches ⟨none, none, none⟩ k = false) ∧
      on_press_matches ⟨some hv, none, nm0⟩ (KeyEvent.keyCode (some hv) kch) = true ∧
      (v ≠ hv →
        on_press_matches ⟨some hv, none, nm0⟩ (KeyEvent.keyCode (some v) kch) = false) ∧
      on_press_matches ⟨some hv, none, nm0⟩ (KeyEvent.keyCode none kch) = false ∧
      (v ≠ hv →
        on_press_matches ⟨some hv, some hc, nm0⟩ (KeyEvent.keyCode (some v) (some c)) =
          (c != "" && c.toLower == hc.toLower)) ∧
      on_press_matches ⟨none, some hc, nm0⟩ (KeyEvent.keyCode none (some c)) =
        (c != "" && c.toLower == hc.toLower) ∧
      on_press_matches ⟨vk0, ch0, some n⟩ (KeyEvent.keyName s) = (s == n) ∧
      on_press_matches ⟨vk0, ch0, none⟩ (KeyEvent.keyName s) = false := by
  intro hv v hc c s n kch nm0 vk0 ch0
  refine ⟨?_, ?_, ?_, ?_, ?_, ?_, ?_, ?_⟩
  · intro k
    cases k with
    | keyCode kvk2 kch2 =>
      cases kch2 <;> simp [on_press_matches]
    | keyName s2 => simp [on_press_matches]
  · simp [on_press_matches]
  · intro hne
    cases kch <;> simp [on_press_matches, hne]
  · cases kch <;> simp [on_press_matches]
  · intro hne
    simp [on_press_matches, hne]
  · simp [on_press_matches]
  · simp [on_press_matches]
  · simp [on_press_matches]

/-- Witness for C4 (amended) at binding vk 101 and the concrete events of
the specification example, plus the corrected fallthrough case. -/
theorem C4_witness :
    on_press_matches ⟨some 101, none, none⟩
      (KeyEvent.keyCode (some 101) (some ("x"))) = true ∧
    on_press_matches ⟨some 101, none, none⟩
      (KeyEvent.keyCode (some 102) (some ("x"))) = false ∧
    on_press_matches ⟨some 101, none, none⟩
      (KeyEvent.keyCode none (some ("x"))) = false ∧
    on_press_matches ⟨some 101, some ("x"), none⟩
      (KeyEvent.keyCode (some 102) (some ("x"))) =
      (("x") != "" && ("x").toLower == ("x").toLower) := by
  obtain ⟨-, h2, h3, h4, h5, -, -, -⟩ :=
    C4_matching_amended 101 102 ("x") ("x") ("a") ("b") (some ("x")) none (some 101) none
  exact ⟨h2, h3 (by decide), h4, h5 (by decide)⟩

/-- Helper: stop always leaves the scheduler inactive. -/
theorem stop_clears_active (s : SchedState) : (stop s).1.is_active = false := by
  by_cases h : s.is_active
  · by_cases ht : s.hasThread <;> simp [stop, h, ht]
  · simp only [Bool.not_eq_true] at h
    simp [stop, h]

/-- C1: the clicking loop of the source never emits a countdown-observer
notification, whatever the environment does: no Some(delay) is published at
the start of any wait and no None is published when the loop stops (the
scheduler of the source has no observer slot at all, although main.py line
63 calls set_next_delay_callback on it). -/
theorem C1_no_countdown_published :
    ∀ (its : List LoopIter), has_publish (clicking_loop its) = false := by
  intro its
  induction its with
  | nil => rfl
  | cons it rest ih =>
    simp only [has_publish] at ih ⊢
    by_cases ht : it.activeAtTop
    · by_cases hc : it.activeAtCheck <;>
        simp [clicking_loop, ht, hc, Ev.isPublish, ih]
    · simp [clicking_loop, ht]

/-- Counterexample to C2: starting from the idle initial state, when
position capture fails (pyautogui.position raises) the exception is
swallowed inside lock_current_position, toggle_clicking proceeds, and
afterwards the scheduler IS running and the application reports active —
the claim requires the scheduler never to be started and the state to
remain Idle. -/
theorem C2_counterexample :
    (toggle_clicking ⟨false, none, ⟨none, 3⟩, ⟨false, false, 1, 3⟩, false, (false, none)⟩
        none true true true).sched.is_active = true ∧
    (toggle_clicking ⟨false, none, ⟨none, 3⟩, ⟨false, false, 1, 3⟩, false, (false, none)⟩
        none true true true).is_active = true := by
  exact ⟨rfl, rfl⟩

/-- C2 (amended): in the Idle state, a step of the Idle-to-Active
transition that raises — scheduler start failing, or a notification step
failing — triggers the compensating rollback, leaving the scheduler
stopped, the position unlocked, collaborators notified inactive and the
application reporting Idle; a position-capture failure, however, is
swallowed silently inside the mouse controller (the locked position is
left as it was) and the transition proceeds to start the scheduler and
report Active. -/
theorem C2_toggle_amended :
    ∀ (a : AppState) (cap : Option (ℤ × ℤ)) (lok iok gok : Bool),
      a.is_active = false →
      ((lok = false ∨ iok = false ∨ gok = false ∨ a.sched.is_active = true) →
        ((toggle_clicking a cap lok iok gok).is_active = false ∧
         (toggle_clicking a cap lok iok gok).sched.is_active = false ∧
         (toggle_clicking a cap lok iok gok).locked_position = none ∧
         (toggle_clicking a cap lok iok gok).mouse.locked_position = none ∧
         (toggle_clicking a cap lok iok gok).indicator_active = false ∧
         (toggle_clicking a cap lok iok gok).gui_status = (false, none))) ∧
      (cap = none → a.sched.is_active = false → lok = true → iok = true → gok = true →
        ((toggle_clicking a cap lok iok gok).is_active = true ∧
         (toggle_clicking a cap lok iok gok).sched.is_active = true ∧
         (toggle_clicking a cap lok iok gok).mouse.locked_position
            = a.mouse.locked_position)) := by
  intro a cap lok iok gok h0
  obtain ⟨aa, alp, am, asch, ai, ag⟩ := a
  obtain ⟨sa, sth, smn, smx⟩ := asch
  simp only at h0
  subst h0
  constructor
  · intro hfail
    cases lok <;> cases iok <;> cases gok <;> cases sa <;> cases sth <;>
      simp_all [toggle_clicking, toggle_rollback, start, stop, unlock_position,
        lock_current_position]
  · rintro rfl hsa rfl rfl rfl
    simp only at hsa
    subst hsa
    simp [toggle_clicking, start, lock_current_position]

/-- Witness for C2 (amended): launch failure rolls back to Idle with the
scheduler stopped; capture failure with a working launch ends Active with
the scheduler running. -/
theorem C2_witness :
    (toggle_clicking ⟨false, none, ⟨some (7, 8), 3⟩, ⟨false, false, 1, 3⟩, false, (false, none)⟩
        (some (1, 2)) false true true).is_active = false ∧
    (toggle_clicking ⟨false, none, ⟨some (7, 8), 3⟩, ⟨false, false, 1, 3⟩, false, (false, none)⟩
        (some (1, 2)) false true true).sched.is_active = false ∧
    (toggle_clicking ⟨false, none, ⟨some (7, 8), 3⟩, ⟨false, false, 1, 3⟩, false, (false, none)⟩
        none true true true).is_active = true ∧
    (toggle_clicking ⟨false, none, ⟨some (7, 8), 3⟩, ⟨false, false, 1, 3⟩, false, (false, none)⟩
        none true true true).mouse.locked_position = some (7, 8) := by
  refine ⟨?_, ?_, ?_, ?_⟩
  · exact ((C2_toggle_amended ⟨false, none, ⟨some (7, 8), 3⟩, ⟨false, false, 1, 3⟩, false,
      (false, none)⟩ (some (1, 2)) false true true rfl).1 (Or.inl rfl)).1
  · exact ((C2_toggle_amended ⟨false, none, ⟨some (7, 8), 3⟩, ⟨false, false, 1, 3⟩, false,
      (false, none)⟩ (some (1, 2)) false true true rfl).1 (Or.inl rfl)).2.1
  · exact ((C2_toggle_amended ⟨false, none, ⟨some (7, 8), 3⟩, ⟨false, false, 1, 3⟩, false,
      (false, none)⟩ none true true true rfl).2 rfl rfl rfl rfl rfl).1
  · exact ((C2_toggle_amended ⟨false, none, ⟨some (7, 8), 3⟩, ⟨false, false, 1, 3⟩, false,
      (false, none)⟩ none true true true rfl).2 rfl rfl rfl rfl rfl).2.2

/-- Counterexample to C3: with a sampled delay of 5 and stop() invoked 1
second into the wait, the suspension of the source still lasts the full 5
seconds — it does not observably end early — whereas the interruptible wait
required by the claim would end after 1 second. -/
theorem C3_counterexample :
    sleep_duration 5 (some 1) = 5 ∧ ¬ sleep_duration 5 (some 1) < 5 ∧
    spec_interruptible_wait 5 (some 1) = 1 := by
  refine ⟨rfl, ?_, ?_⟩
  · simp [sleep_duration]
  · simp [spec_interruptible_wait]

/-- C3 (amended): the per-click suspension is not interruptible — it lasts
the full sampled delay regardless of when stop() clears the flag — but the
post-sleep double-check means no click is requested in any iteration whose
re-check observes the cleared flag, so no new click is issued after stop()
has cleared the active flag. -/
theorem C3_stop_amended :
    ∀ (d : ℚ) (stopAt : Option ℚ) (its : List LoopIter),
      sleep_duration d stopAt = d ∧
      ((∀ it ∈ its, it.activeAtCheck = false) → Ev.click ∉ clicking_loop its) := by
  intro d stopAt its
  refine ⟨rfl, ?_⟩
  induction its with
  | nil =>
    intro _
    simp [clicking_loop]
  | cons it rest ih =>
    intro h
    have h1 : it.activeAtCheck = false := h it (by simp)
    have h2 : ∀ x ∈ rest, x.activeAtCheck = false :=
      fun x hx => h x (List.mem_cons_of_mem _ hx)
    by_cases ht : it.activeAtTop
    · simp [clicking_loop, ht, h1]
      exact ih h2
    · simp [clicking_loop, ht]

/-- Witness for C3 (amended) at delay 5, stop 1 second into the wait, and a
single loop iteration whose double-check reads the cleared flag. -/
theorem C3_witness :
    sleep_duration 5 (some 1) = 5 ∧
    Ev.click ∉ clicking_loop [⟨true, 1, 3, 0, false⟩] := by
  refine ⟨(C3_stop_amended 5 (some 1) []).1, ?_⟩
  refine (C3_stop_amended 5 (some 1) [⟨true, 1, 3, 0, false⟩]).2 ?_
  intro it hit
  simp at hit
  subst hit
  rfl

end ClickClick
